import Mathlib

/-
Verification of the datacube-qgis plugin sources:
  datacube_query/algs/query.py     (processing algorithm: validation and export loop)
  src/datacube_query/utils.py      (query construction, raster write helpers)

Python dictionaries are modelled as association lists over String keys,
the QGIS feedback channel as an event trace, and the export loop of
DataCubeQueryAlgorithm.execute as a structurally recursive function.
-/

namespace DatacubeQgis

/-- Python values appearing in the parameter and profile dictionaries. -/
inductive PyVal
  | vInt (n : Int)
  | vStr (s : String)
  | vBool (b : Bool)
  | vNone
  | vIntList (l : List Int)
  | vStrList (l : List String)
  | vPair (a b : PyVal)
  deriving DecidableEq, Repr

/-- A Python dict with String keys: insertion-ordered association list. -/
abbrev PyDict (α : Type) := List (String × α)

abbrev Dict := PyDict PyVal

/-- Python dict lookup (d.get(k) / d[k]); dict keys are unique so the first
match is the binding. -/
def pyGet {α : Type} : PyDict α → String → Option α
  | [], _ => none
  | kv :: rest, k => if kv.1 = k then some kv.2 else pyGet rest k

/-- Python dict item assignment d[k] = v: replace in place or append. -/
def pySet {α : Type} : PyDict α → String → α → PyDict α
  | [], k, v => [(k, v)]
  | kv :: rest, k, v => if kv.1 = k then (kv.1, v) :: rest else kv :: pySet rest k v

/-- Python d.update(o): assign every binding of o into d, in order. -/
def pyUpdate {α : Type} (d o : PyDict α) : PyDict α :=
  o.foldl (fun acc kv => pySet acc kv.1 kv.2) d

/-- Python membership test k in d. -/
def pyHasKey {α : Type} (d : PyDict α) (k : String) : Bool :=
  (pyGet d k).isSome

/-- Python del d[k]: none models the KeyError raised for a missing key. -/
def pyDel {α : Type} (d : PyDict α) (k : String) : Option (PyDict α) :=
  if (pyGet d k).isSome then some (d.filter (fun kv => !decide (kv.1 = k))) else none

/-- Keys of a dict are pairwise distinct (always true of a real Python dict). -/
def nodupKeys {α : Type} (d : PyDict α) : Prop :=
  (d.map Prod.fst).Nodup

instance {α : Type} (d : PyDict α) : Decidable (nodupKeys d) := by
  unfold nodupKeys; infer_instance

theorem pyGet_pySet_self {α : Type} (d : PyDict α) (k : String) (v : α) :
    pyGet (pySet d k v) k = some v := by
  induction d with
  | nil => simp [pySet, pyGet]
  | cons kv rest ih =>
    by_cases h : kv.1 = k
    · simp [pySet, pyGet, h]
    · simp [pySet, pyGet, h, ih]

theorem pyGet_pySet_other {α : Type} (d : PyDict α) (k k' : String) (v : α)
    (h : k ≠ k') : pyGet (pySet d k v) k' = pyGet d k' := by
  induction d with
  | nil => simp [pySet, pyGet, h]
  | cons kv rest ih =>
    by_cases hk : kv.1 = k
    · simp [pySet, pyGet, hk, h]
    · simp [pySet, pyGet, hk, ih]

theorem pyUpdate_nil {α : Type} (d : PyDict α) : pyUpdate d [] = d := rfl

theorem pyUpdate_cons {α : Type} (d : PyDict α) (kv : String × α) (o : PyDict α) :
    pyUpdate d (kv :: o) = pyUpdate (pySet d kv.1 kv.2) o := rfl

theorem pyGet_eq_none_of_not_mem {α : Type} (d : PyDict α) (k : String)
    (h : k ∉ d.map Prod.fst) : pyGet d k = none := by
  induction d with
  | nil => rfl
  | cons kv rest ih =>
    simp only [List.map_cons, List.mem_cons] at h
    push_neg at h
    have : kv.1 ≠ k := fun he => h.1 he.symm
    simp [pyGet, this, ih h.2]

/-- Updating with a dict that does not bind k leaves the binding of k alone. -/
theorem pyGet_pyUpdate_of_none {α : Type} (d o : PyDict α) (k : String)
    (h : pyGet o k = none) : pyGet (pyUpdate d o) k = pyGet d k := by
  induction o generalizing d with
  | nil => rfl
  | cons kv rest ih =>
    have hk : ¬ kv.1 = k := by
      intro he
      simp [pyGet, he] at h
    have hr : pyGet rest k = none := by
      simpa [pyGet, hk] using h
    rw [pyUpdate_cons, ih _ hr, pyGet_pySet_other _ _ _ _ hk]

/-- A binding supplied by the update wins over the original dict. -/
theorem pyGet_pyUpdate_of_some {α : Type} (d o : PyDict α) (k : String) (v : α)
    (hnd : nodupKeys o) (h : pyGet o k = some v) :
    pyGet (pyUpdate d o) k = some v := by
  induction o generalizing d with
  | nil => simp [pyGet] at h
  | cons kv rest ih =>
    have hnd' : (kv.1 ∉ rest.map Prod.fst) ∧ nodupKeys rest := by
      simpa [nodupKeys] using hnd
    by_cases hk : kv.1 = k
    · have hv : kv.2 = v := by simpa [pyGet, hk] using h
      have hrest : pyGet rest k = none :=
        pyGet_eq_none_of_not_mem _ _ (hk ▸ hnd'.1)
      subst hk
      rw [pyUpdate_cons, pyGet_pyUpdate_of_none _ _ _ hrest,
          pyGet_pySet_self d kv.1 kv.2, hv]
    · have hr : pyGet rest k = some v := by simpa [pyGet, hk] using h
      rw [pyUpdate_cons, ih _ hnd'.2 hr]

theorem pyGet_filter_ne_self {α : Type} (d : PyDict α) (k : String) :
    pyGet (d.filter (fun kv => !decide (kv.1 = k))) k = none := by
  induction d with
  | nil => rfl
  | cons kv rest ih =>
    by_cases h : kv.1 = k
    · simpa [List.filter_cons, h] using ih
    · simp [List.filter_cons, h, pyGet, ih]

theorem pyGet_filter_ne_other {α : Type} (d : PyDict α) (k k' : String)
    (h : k' ≠ k) : pyGet (d.filter (fun kv => !decide (kv.1 = k))) k' = pyGet d k' := by
  induction d with
  | nil => rfl
  | cons kv rest ih =>
    by_cases hk : kv.1 = k
    · have hkk : k ≠ k' := fun he => h he.symm
      simp [List.filter_cons, hk, pyGet, hkk, ih]
    · simp [List.filter_cons, hk, pyGet, ih]

theorem pyDel_eq_some {α : Type} (d : PyDict α) (k : String)
    (h : pyHasKey d k = true) :
    pyDel d k = some (d.filter (fun kv => !decide (kv.1 = k))) := by
  simp only [pyDel, pyHasKey] at *
  simp [h]

/-! ### Query construction inside run_query (src/datacube_query/utils.py,
lines 90-121) -/

/-- The query extent, unpacked as xmin, ymin, xmax, ymax = extent. -/
structure Extent where
  xmin : PyVal
  ymin : PyVal
  xmax : PyVal
  ymax : PyVal
  deriving DecidableEq, Repr

/-- Arguments of utils.run_query. The config argument only parameterises the
Datacube connection (external) and is omitted. -/
structure RQArgs where
  product : String
  measurements : PyVal
  date_range : PyVal
  extent : Extent
  query_crs : String
  output_crs : Option String
  output_res : Option PyVal
  dask_chunks : PyVal
  deriving DecidableEq, Repr

/-- The dict built first in run_query:
dict(product=product, x=(xmin, xmax), y=(ymin, ymax), time=date_range,
crs=str(query_crs)). -/
def initial_query (a : RQArgs) : Dict :=
  [("product", .vStr a.product),
   ("x", .vPair a.extent.xmin a.extent.xmax),
   ("y", .vPair a.extent.ymin a.extent.ymax),
   ("time", a.date_range),
   ("crs", .vStr a.query_crs)]

/-- The query dict as passed to dc.load(**query): the initial query with the
measurements, dask_chunks and group_by assignments, plus output_crs and
resolution exactly when those arguments are not None. -/
def full_query (a : RQArgs) : Dict :=
  let q := pySet (initial_query a) "measurements" a.measurements
  let q := pySet q "dask_chunks" a.dask_chunks
  let q := pySet q "group_by" (.vStr "solar_day")
  let q := match a.output_crs with
    | none => q
    | some c => pySet q "output_crs" (.vStr c)
  match a.output_res with
  | none => q
  | some r => pySet q "resolution" r

/-! ### build_overviews (src/datacube_query/utils.py, lines 25-37) -/

/-- Python truthiness for the modelled values. -/
def pyTruthy : PyVal → Bool
  | .vBool b => b
  | .vInt n => decide (n ≠ 0)
  | .vStr s => decide (s ≠ "")
  | .vNone => false
  | .vIntList l => !l.isEmpty
  | .vStrList l => !l.isEmpty
  | .vPair _ _ => true

/-- options = GTIFF_OVR_DEFAULTS.copy(); updated by overview_options when it
is not None. -/
def effective_ovr_options (defaults : Dict) : Option Dict → Dict
  | none => defaults
  | some o => pyUpdate defaults o

/-- The calls build_overviews makes into rasterio on its opened file. -/
structure OvrCall where
  mode : String
  factors : PyVal
  resampling : PyVal
  tag_ns : String
  tag_resampling : String
  deriving DecidableEq, Repr

/-- View of a Python value as a str, for subscripting a str-keyed dict. -/
def PyVal.asStr : PyVal → Option String
  | .vStr s => some s
  | _ => none

theorem PyVal.asStr_eq_some {v : PyVal} {s : String} (h : v.asStr = some s) :
    v = .vStr s := by
  cases v <;> simp [PyVal.asStr] at h
  rw [h]

/-- utils.build_overviews. GTIFF_OVR_DEFAULTS and GTIFF_OVR_RESAMPLING live
in datacube_query/defaults.py (not under src) and are parameters here.
The three dict subscripts raise KeyError on a missing key, modelled by
none; a non-string resampling option is likewise a failed lookup. -/
def build_overviews (gtiff_ovr_defaults gtiff_ovr_resampling : Dict)
    (filename : String) (overview_options : Option Dict) : Option OvrCall :=
  let options := effective_ovr_options gtiff_ovr_defaults overview_options
  (pyGet options "internal_storage").bind fun istore =>
    let mode := if pyTruthy istore then "r+" else "r"
    ((pyGet options "resampling").bind PyVal.asStr).bind fun rname =>
      (pyGet gtiff_ovr_resampling rname).bind fun rmeth =>
        (pyGet options "factors").bind fun factors =>
          some { mode := mode, factors := factors, resampling := rmeth,
                 tag_ns := "rio_overview", tag_resampling := rname }

/-! ### Theorems for the query dict and build_overviews -/

/-- Claim C7: the query dict passed to dc.load contains product, x, y, time,
crs, measurements, dask_chunks and group_by, with x = (xmin, xmax) and
y = (ymin, ymax) taken from the extent; it contains output_crs exactly when
an output CRS argument was supplied and resolution exactly when an output
resolution argument was supplied. -/
theorem run_query_dict_fields (a : RQArgs) :
    pyGet (full_query a) "product" = some (.vStr a.product)
    ∧ pyGet (full_query a) "x" = some (.vPair a.extent.xmin a.extent.xmax)
    ∧ pyGet (full_query a) "y" = some (.vPair a.extent.ymin a.extent.ymax)
    ∧ pyGet (full_query a) "time" = some a.date_range
    ∧ pyGet (full_query a) "crs" = some (.vStr a.query_crs)
    ∧ pyGet (full_query a) "measurements" = some a.measurements
    ∧ pyGet (full_query a) "dask_chunks" = some a.dask_chunks
    ∧ pyGet (full_query a) "group_by" = some (.vStr "solar_day")
    ∧ pyGet (full_query a) "output_crs" = Option.map (fun c => .vStr c) a.output_crs
    ∧ pyGet (full_query a) "resolution" = a.output_res := by
  obtain ⟨p, m, dr, e, qc, oc, orr, dc⟩ := a
  cases oc <;> cases orr <;>
    exact ⟨rfl, rfl, rfl, rfl, rfl, rfl, rfl, rfl, rfl, rfl⟩

/-- Claim C8: build_overviews computes its effective options as the defaults
updated by the supplied options (a None argument yields exactly the
defaults, supplied keys take precedence, unsupplied keys keep their
defaults), builds overviews with the effective factors and the resampling
method mapped from the effective resampling name, and records that name in
the rio_overview tag namespace. -/
theorem build_overviews_override_merge
    (defaults mapping : Dict) (filename : String) (o : Dict) (k : String)
    (v : PyVal) (oo : Option Dict) (call : OvrCall) :
    (effective_ovr_options defaults none = defaults)
    ∧ (nodupKeys o → pyGet o k = some v →
        pyGet (effective_ovr_options defaults (some o)) k = some v)
    ∧ (pyGet o k = none →
        pyGet (effective_ovr_options defaults (some o)) k = pyGet defaults k)
    ∧ (build_overviews defaults mapping filename oo = some call →
        pyGet (effective_ovr_options defaults oo) "resampling"
            = some (.vStr call.tag_resampling)
        ∧ pyGet mapping call.tag_resampling = some call.resampling
        ∧ pyGet (effective_ovr_options defaults oo) "factors" = some call.factors
        ∧ call.tag_ns = "rio_overview") := by
  refine ⟨rfl, fun hnd h => pyGet_pyUpdate_of_some _ _ _ _ hnd h,
          fun h => pyGet_pyUpdate_of_none _ _ _ h, fun h => ?_⟩
  dsimp only [build_overviews] at h
  obtain ⟨istore, h1, h⟩ := Option.bind_eq_some.mp h
  obtain ⟨rname, h2, h⟩ := Option.bind_eq_some.mp h
  obtain ⟨rmeth, h3, h⟩ := Option.bind_eq_some.mp h
  obtain ⟨factors, h4, h⟩ := Option.bind_eq_some.mp h
  have hc : call = { mode := if pyTruthy istore then "r+" else "r",
                     factors := factors, resampling := rmeth,
                     tag_ns := "rio_overview", tag_resampling := rname } :=
    (Option.some.inj h).symm
  subst hc
  obtain ⟨rv, hrv, hstr⟩ := Option.bind_eq_some.mp h2
  rw [hrv, PyVal.asStr_eq_some hstr]
  exact ⟨rfl, h3, h4, rfl⟩

/-- Concrete data for the C8 witness. -/
def ovrDefaults0 : Dict :=
  [("internal_storage", .vBool true), ("resampling", .vStr "average"),
   ("factors", .vIntList [2, 4, 8, 16, 32])]

def ovrResampling0 : Dict := [("average", .vInt 0), ("nearest", .vInt 1)]

def ovrOpts0 : Dict :=
  [("factors", .vIntList [2, 4]), ("resampling", .vStr "nearest")]

def ovrCall0 : OvrCall :=
  { mode := "r+", factors := .vIntList [2, 4], resampling := .vInt 1,
    tag_ns := "rio_overview", tag_resampling := "nearest" }

theorem build_overviews_override_merge_witness :
    nodupKeys ovrOpts0
    ∧ pyGet ovrOpts0 "factors" = some (.vIntList [2, 4])
    ∧ pyGet (effective_ovr_options ovrDefaults0 (some ovrOpts0)) "factors"
        = some (.vIntList [2, 4])
    ∧ pyGet ovrOpts0 "internal_storage" = none
    ∧ pyGet (effective_ovr_options ovrDefaults0 (some ovrOpts0)) "internal_storage"
        = pyGet ovrDefaults0 "internal_storage"
    ∧ build_overviews ovrDefaults0 ovrResampling0 "out.tif" (some ovrOpts0)
        = some ovrCall0
    ∧ pyGet (effective_ovr_options ovrDefaults0 (some ovrOpts0)) "resampling"
        = some (.vStr ovrCall0.tag_resampling)
    ∧ pyGet ovrResampling0 ovrCall0.tag_resampling = some ovrCall0.resampling
    ∧ pyGet (effective_ovr_options ovrDefaults0 (some ovrOpts0)) "factors"
        = some ovrCall0.factors
    ∧ ovrCall0.tag_ns = "rio_overview" :=
  have h := build_overviews_override_merge ovrDefaults0 ovrResampling0 "out.tif"
    ovrOpts0 "factors" (.vIntList [2, 4]) (some ovrOpts0) ovrCall0
  have hi := build_overviews_override_merge ovrDefaults0 ovrResampling0 "out.tif"
    ovrOpts0 "internal_storage" (.vIntList [2, 4]) (some ovrOpts0) ovrCall0
  have h4 := h.2.2.2 (by decide)
  ⟨by decide, by decide, h.2.1 (by decide) (by decide), by decide,
   hi.2.2.1 (by decide), by decide, h4.1, h4.2.1, h4.2.2.1, h4.2.2.2⟩

/-! ### write_geotiff profile computation (src/datacube_query/utils.py,
lines 158-206) and the calc_stats stub (lines 40-41) -/

/-- ASCII lowercasing of one character, as str.lower acts on the ASCII
keys used in GTiff profiles. -/
def pyLowerChar (c : Char) : Char :=
  if 65 ≤ c.toNat ∧ c.toNat ≤ 90 then Char.ofNat (c.toNat + 32) else c

/-- str.lower for ASCII strings. -/
def pyLower (s : String) : String := String.mk (s.data.map pyLowerChar)

/-- utils.lcase_dict: rebuild the dict with every key lowercased (all keys
here are strings, so the TypeError branch never fires). -/
def lcase_dict {α : Type} (d : PyDict α) : PyDict α :=
  d.foldl (fun acc kv => pySet acc (pyLower kv.1) kv.2) []

/-- Python: blockx and blockx > dim, for an int-or-absent block value (a
missing key gives None, which is falsy). -/
def pyGtNat (v : Option PyVal) (dim : Nat) : Bool :=
  match v with
  | some (.vInt m) => decide (m ≠ 0) && decide ((dim : Int) < m)
  | _ => false

/-- The profile after GTIFF_DEFAULTS.copy(), the width/height/affine/crs/
count/dtype update, the profile_override update (profile_override or the
empty dict), and lcase_dict. GTIFF_DEFAULTS lives in
datacube_query/defaults.py (not under src) and is a parameter here. -/
def merged_profile (gtiff_defaults : Dict) (dimx dimy : Nat) (affine crs : PyVal)
    (count : Nat) (dtype : String) (profile_override : Option Dict) : Dict :=
  let profile := pyUpdate gtiff_defaults
    [("width", .vInt dimx), ("height", .vInt dimy), ("affine", affine),
     ("crs", crs), ("count", .vInt count), ("dtype", .vStr dtype)]
  let profile := pyUpdate profile (profile_override.getD [])
  lcase_dict profile

/-- The block-size adjustment of write_geotiff (lines 199-204): when the
profile carries a blockxsize wider than the raster or a blockysize taller
than it, both block keys are deleted and tiled is set False. The error case
models the KeyError a del of a missing key raises. -/
def block_adjust (profile : Dict) (dimx dimy : Nat) : Except String Dict :=
  let blockx := pyGet profile "blockxsize"
  let blocky := pyGet profile "blockysize"
  if pyGtNat blockx dimx || pyGtNat blocky dimy then
    match pyDel profile "blockxsize" with
    | none => .error "KeyError: blockxsize"
    | some p1 =>
      match pyDel p1 "blockysize" with
      | none => .error "KeyError: blockysize"
      | some p2 => .ok (pySet p2 "tiled" (.vBool false))
  else .ok profile

/-- The profile write_geotiff hands to rasterio.open. -/
def write_profile (gtiff_defaults : Dict) (dimx dimy : Nat) (affine crs : PyVal)
    (count : Nat) (dtype : String) (profile_override : Option Dict) :
    Except String Dict :=
  block_adjust
    (merged_profile gtiff_defaults dimx dimy affine crs count dtype profile_override)
    dimx dimy

/-- The block value is an int or the key is absent, as for every real
profile (rasterio block sizes are ints). -/
def intOrAbsent (v : Option PyVal) : Prop :=
  v = none ∨ ∃ m : Int, v = some (.vInt m)

/-- The condition exactly as the claim states it: the profile specifies a
blockxsize greater than the raster width, or a blockysize greater than the
raster height. -/
def oversizeBlocks (P : Dict) (dimx dimy : Nat) : Prop :=
  (∃ m : Int, pyGet P "blockxsize" = some (.vInt m) ∧ (dimx : Int) < m)
  ∨ (∃ m : Int, pyGet P "blockysize" = some (.vInt m) ∧ (dimy : Int) < m)

theorem pyGtNat_iff (v : Option PyVal) (d : Nat) (h : intOrAbsent v) :
    pyGtNat v d = true ↔ ∃ m : Int, v = some (.vInt m) ∧ (d : Int) < m := by
  rcases h with rfl | ⟨m, rfl⟩
  · simp [pyGtNat]
  · simp only [pyGtNat, Bool.and_eq_true, decide_eq_true_eq, Option.some.injEq,
      PyVal.vInt.injEq]
    constructor
    · rintro ⟨h1, h2⟩
      exact ⟨m, rfl, h2⟩
    · rintro ⟨m', hm, h2⟩
      subst hm
      exact ⟨by omega, h2⟩

/-- Claim C10: provided the block sizes in the merged profile are ints or
absent and both block keys are present (which the real GTIFF_DEFAULTS
guarantees by defining both), write_geotiff removes both block entries and
writes with tiled False exactly when the merged profile specifies a
blockxsize greater than the raster width or a blockysize greater than the
raster height, and otherwise passes the profile through unchanged. -/
theorem write_profile_block_adjustment
    (gtiff_defaults : Dict) (dimx dimy : Nat) (affine crs : PyVal) (count : Nat)
    (dtype : String) (profile_override : Option Dict) (P : Dict)
    (hx : intOrAbsent (pyGet P "blockxsize"))
    (hy : intOrAbsent (pyGet P "blockysize"))
    (hkx : pyHasKey P "blockxsize" = true)
    (hky : pyHasKey P "blockysize" = true) :
    write_profile gtiff_defaults dimx dimy affine crs count dtype profile_override
      = block_adjust
          (merged_profile gtiff_defaults dimx dimy affine crs count dtype
            profile_override) dimx dimy
    ∧ ∃ r, block_adjust P dimx dimy = .ok r
      ∧ (oversizeBlocks P dimx dimy →
          pyGet r "blockxsize" = none ∧ pyGet r "blockysize" = none
          ∧ pyGet r "tiled" = some (.vBool false))
      ∧ (¬ oversizeBlocks P dimx dimy → r = P) := by
  refine ⟨rfl, ?_⟩
  have hbxy : ("blockysize" : String) ≠ "blockxsize" := by decide
  have htx : ("blockxsize" : String) ≠ "tiled" := by decide
  have hty : ("blockysize" : String) ≠ "tiled" := by decide
  cases hc : (pyGtNat (pyGet P "blockxsize") dimx
      || pyGtNat (pyGet P "blockysize") dimy) with
  | false =>
    refine ⟨P, ?_, ?_, fun _ => rfl⟩
    · simp [block_adjust, hc]
    · intro hov
      rcases hov with h | h
      · have hb : pyGtNat (pyGet P "blockxsize") dimx = true := (pyGtNat_iff _ _ hx).mpr h
        simp [hb] at hc
      · have hb : pyGtNat (pyGet P "blockysize") dimy = true := (pyGtNat_iff _ _ hy).mpr h
        simp [hb] at hc
  | true =>
    have hp1 : pyDel P "blockxsize"
        = some (P.filter (fun kv => !decide (kv.1 = "blockxsize"))) :=
      pyDel_eq_some _ _ hkx
    have hky1 : pyHasKey (P.filter (fun kv => !decide (kv.1 = "blockxsize")))
        "blockysize" = true := by
      unfold pyHasKey
      rw [pyGet_filter_ne_other _ _ _ hbxy]
      exact hky
    have hp2 : pyDel (P.filter (fun kv => !decide (kv.1 = "blockxsize"))) "blockysize"
        = some ((P.filter (fun kv => !decide (kv.1 = "blockxsize"))).filter
            (fun kv => !decide (kv.1 = "blockysize"))) :=
      pyDel_eq_some _ _ hky1
    refine ⟨pySet ((P.filter (fun kv => !decide (kv.1 = "blockxsize"))).filter
        (fun kv => !decide (kv.1 = "blockysize"))) "tiled" (.vBool false),
      ?_, fun _ => ⟨?_, ?_, ?_⟩, fun hno => ?_⟩
    · simp [block_adjust, hc, hp1, hp2]
    · rw [pyGet_pySet_other _ _ _ _ (Ne.symm htx),
        pyGet_filter_ne_other _ _ _ (Ne.symm hbxy), pyGet_filter_ne_self]
    · rw [pyGet_pySet_other _ _ _ _ (Ne.symm hty), pyGet_filter_ne_self]
    · exact pyGet_pySet_self _ _ _
    · exfalso
      have hc2 : pyGtNat (pyGet P "blockxsize") dimx = true
          ∨ pyGtNat (pyGet P "blockysize") dimy = true := by
        simpa using hc
      rcases hc2 with h | h
      · exact hno (.inl ((pyGtNat_iff _ _ hx).mp h))
      · exact hno (.inr ((pyGtNat_iff _ _ hy).mp h))

/-- Concrete data for the C10 witness: blockxsize 256 against a raster 100
pixels wide triggers the adjustment. -/
def gtiffDefaults0 : Dict :=
  [("driver", .vStr "GTiff"), ("blockxsize", .vInt 256), ("blockysize", .vInt 256),
   ("tiled", .vBool true), ("compress", .vStr "lzw")]

theorem write_profile_block_adjustment_witness :
    intOrAbsent (pyGet (merged_profile gtiffDefaults0 100 100 .vNone
        (.vStr "EPSG:3577") 1 "int16" none) "blockxsize")
    ∧ intOrAbsent (pyGet (merged_profile gtiffDefaults0 100 100 .vNone
        (.vStr "EPSG:3577") 1 "int16" none) "blockysize")
    ∧ pyHasKey (merged_profile gtiffDefaults0 100 100 .vNone
        (.vStr "EPSG:3577") 1 "int16" none) "blockxsize" = true
    ∧ pyHasKey (merged_profile gtiffDefaults0 100 100 .vNone
        (.vStr "EPSG:3577") 1 "int16" none) "blockysize" = true
    ∧ (write_profile gtiffDefaults0 100 100 .vNone (.vStr "EPSG:3577") 1 "int16" none
        = block_adjust (merged_profile gtiffDefaults0 100 100 .vNone
            (.vStr "EPSG:3577") 1 "int16" none) 100 100
      ∧ ∃ r, block_adjust (merged_profile gtiffDefaults0 100 100 .vNone
            (.vStr "EPSG:3577") 1 "int16" none) 100 100 = .ok r
        ∧ (oversizeBlocks (merged_profile gtiffDefaults0 100 100 .vNone
              (.vStr "EPSG:3577") 1 "int16" none) 100 100 →
            pyGet r "blockxsize" = none ∧ pyGet r "blockysize" = none
            ∧ pyGet r "tiled" = some (.vBool false))
        ∧ (¬ oversizeBlocks (merged_profile gtiffDefaults0 100 100 .vNone
              (.vStr "EPSG:3577") 1 "int16" none) 100 100 → r = merged_profile
              gtiffDefaults0 100 100 .vNone (.vStr "EPSG:3577") 1 "int16" none)) :=
  ⟨Or.inr ⟨256, by decide⟩, Or.inr ⟨256, by decide⟩, by decide, by decide,
   write_profile_block_adjustment gtiffDefaults0 100 100 .vNone (.vStr "EPSG:3577")
     1 "int16" none _ (Or.inr ⟨256, by decide⟩) (Or.inr ⟨256, by decide⟩)
     (by decide) (by decide)⟩

/-- utils.calc_stats has the body pass: it returns None and performs no
effect, whatever ambient state is threaded through. -/
def calc_stats {World : Type} (filename stats_options : PyVal) (w : World) :
    PyVal × World :=
  (.vNone, w)

/-- Claim C9: the statistics computation is an unimplemented stub: for every
filename, options value and ambient state it performs no action, returns
None and leaves the output file and all other state unchanged. -/
theorem calc_stats_is_stub {World : Type} (filename stats_options : PyVal)
    (w : World) :
    calc_stats filename stats_options w = (.vNone, w) := rfl

/-! ### checkParameterValues (datacube_query/algs/query.py, lines 74-118) -/

/-- The validation messages, verbatim from the source. -/
def msg_no_products : String := "Please select at least one product"

def msg_two_dates : String := "Please select two dates or none at all"

def msg_date_order : String := "The start date must be earlier than the end date"

def msg_extent_crs : String := "Please set a valid EPSG CRS for your project/layer"

def msg_output_res : String :=
  "Please specify \"Output Resolution\" when specifying \"Output CRS\""

def msg_output_crs : String := "Please set a valid EPSG \"Output CRS\""

/-- Split a character list on the dash separator. -/
def splitOnDash : List Char → List (List Char)
  | [] => [[]]
  | c :: rest =>
    let r := splitOnDash rest
    if c = '-' then [] :: r
    else
      match r with
      | [] => [[c]]
      | g :: gs => (c :: g) :: gs

/-- A nonempty all-digit field read as a number. -/
def digitsToNat? (l : List Char) : Option Nat :=
  if l.isEmpty then none
  else
    l.foldl
      (fun acc c =>
        match acc with
        | none => none
        | some n => if c.isDigit then some (n * 10 + (c.toNat - 48)) else none)
      (some 0)

/-- datetime.strptime(d, percentY-percentm-percentd) restricted to what the
date-order check needs: the numeric year, month, day fields with the basic
field ranges; an unparsable string is None, modelling the ValueError
strptime raises. -/
def parseDate (s : String) : Option (Nat × Nat × Nat) :=
  match (splitOnDash s.data).map digitsToNat? with
  | [some y, some m, some d] =>
    if 1 ≤ m ∧ m ≤ 12 ∧ 1 ≤ d ∧ d ≤ 31 then some (y, m, d) else none
  | _ => none

/-- datetime comparison for dates parsed at midnight: lexicographic on
(year, month, day). -/
def dateLt (a b : Nat × Nat × Nat) : Bool :=
  decide (a.1 < b.1)
  || (decide (a.1 = b.1)
      && (decide (a.2.1 < b.2.1)
          || (decide (a.2.1 = b.2.1) && decide (a.2.2 < b.2.2))))

/-- The parameter values checkParameterValues reads, after the host lookups:
products as their JSON string, the two date strings (empty when unset), the
extent corners, the extent CRS authid (empty when unset), the output CRS
validity flag and authid, and the output resolution double (0 when unset,
and falsy exactly then). -/
structure CPParams where
  products_str : String
  date0 : String
  date1 : String
  xmin : ℚ
  ymin : ℚ
  xmax : ℚ
  ymax : ℚ
  extent_crs_authid : String
  output_crs_valid : Bool
  output_crs_authid : String
  output_res : ℚ
  deriving DecidableEq, Repr

/-- The product-selection message block (line 78-79). -/
def cm_products (p : CPParams) : List String :=
  if p.products_str = "\x7b\x7d" then [msg_no_products] else []

/-- The mixed-dates message block (lines 83-84): one date set and the other
not. -/
def cm_two_dates (p : CPParams) : List String :=
  if (!(decide (p.date0 ≠ "") && decide (p.date1 ≠ "")))
      && (!((!decide (p.date0 ≠ "")) && (!decide (p.date1 ≠ "")))) then
    [msg_two_dates]
  else []

/-- The extent-CRS message block (lines 91-103): with no extent CRS the
extent must lie in the 4326 bounds, otherwise geometry.CRS must accept the
authid. -/
def cm_extent (crs_ok : String → Bool) (p : CPParams) : List String :=
  if p.extent_crs_authid = "" then
    if ¬ (p.xmin ≥ -180 ∧ p.ymin ≥ -90 ∧ p.xmax ≤ 180 ∧ p.ymax ≤ 90) then
      [msg_extent_crs]
    else []
  else
    if crs_ok p.extent_crs_authid then [] else [msg_extent_crs]

/-- The output CRS / resolution message block (lines 105-113): checked only
when the output CRS is valid, and then a falsy (zero) resolution and an
authid geometry.CRS rejects each add a message. -/
def cm_output (crs_ok : String → Bool) (p : CPParams) : List String :=
  if p.output_crs_valid then
    (if p.output_res = 0 then [msg_output_res] else [])
    ++ (if crs_ok p.output_crs_authid then [] else [msg_output_crs])
  else []

/-- The msgs list accumulated by checkParameterValues, in source order.
geometry.CRS validity is external and is the crs_ok parameter; the error
case models the uncaught ValueError of datetime.strptime on a malformed
date. -/
def check_msgs (crs_ok : String → Bool) (p : CPParams) :
    Except String (List String) :=
  if decide (p.date0 ≠ "") && decide (p.date1 ≠ "") then
    match parseDate p.date0, parseDate p.date1 with
    | some d0, some d1 =>
      .ok (cm_products p ++ cm_two_dates p
        ++ (if dateLt d1 d0 then [msg_date_order] else [])
        ++ cm_extent crs_ok p ++ cm_output crs_ok p)
    | _, _ => .error "ValueError: time data does not match the date format"
  else
    .ok (cm_products p ++ cm_two_dates p ++ cm_extent crs_ok p
      ++ cm_output crs_ok p)

/-- checkParameterValues: failure with the joined messages when any check
fails, otherwise whatever super().checkParameterValues returns (self.tr is
the identity in the default locale). -/
def checkParameterValues (crs_ok : String → Bool) (p : CPParams)
    (superResult : Bool × String) : Except String (Bool × String) :=
  match check_msgs crs_ok p with
  | .error e => .error e
  | .ok msgs =>
    if msgs.isEmpty then .ok superResult
    else .ok (false, String.intercalate "\n" msgs)

/-! ### Theorems for checkParameterValues -/

theorem date_order_msg_not_elsewhere (crs_ok : String → Bool) (p : CPParams) :
    msg_date_order ∉ cm_products p
    ∧ msg_date_order ∉ cm_two_dates p
    ∧ msg_date_order ∉ cm_extent crs_ok p
    ∧ msg_date_order ∉ cm_output crs_ok p := by
  refine ⟨?_, ?_, ?_, ?_⟩
  · unfold cm_products
    split
    · intro h
      simp at h
      exact absurd h (by decide)
    · simp
  · unfold cm_two_dates
    split
    · intro h
      simp at h
      exact absurd h (by decide)
    · simp
  · unfold cm_extent
    split
    · split
      · intro h
        simp at h
        exact absurd h (by decide)
      · simp
    · split
      · simp
      · intro h
        simp at h
        exact absurd h (by decide)
  · unfold cm_output
    split
    · intro h
      simp at h
      rcases h with h | h
      · exact absurd h.2 (by decide)
      · exact absurd h.2 (by decide)
    · simp

/-- Claim C5 (amended): for every parameter set in which both dates of the
date range are present and parse, validation reports the date-ordering
message exactly when the start date is later than the end date; a start
date equal to the end date passes. -/
theorem check_msgs_date_order (crs_ok : String → Bool) (p : CPParams)
    (d0 d1 : Nat × Nat × Nat)
    (ht0 : p.date0 ≠ "") (ht1 : p.date1 ≠ "")
    (h0 : parseDate p.date0 = some d0) (h1 : parseDate p.date1 = some d1) :
    ∃ msgs, check_msgs crs_ok p = .ok msgs
      ∧ (msg_date_order ∈ msgs ↔ dateLt d1 d0 = true) := by
  have ht : (decide (p.date0 ≠ "") && decide (p.date1 ≠ "")) = true := by
    simp [ht0, ht1]
  have hne := date_order_msg_not_elsewhere crs_ok p
  refine ⟨cm_products p ++ cm_two_dates p
      ++ (if dateLt d1 d0 then [msg_date_order] else [])
      ++ cm_extent crs_ok p ++ cm_output crs_ok p, ?_, ?_⟩
  · unfold check_msgs
    rw [ht, if_pos rfl, h0, h1]
  · cases hd : dateLt d1 d0 with
    | true => simp [hd]
    | false => simp [hd, hne.1, hne.2.1, hne.2.2.1, hne.2.2.2]

/-- Parameters with both dates present and equal, everything else benign. -/
def cp5 : CPParams :=
  { products_str := "p", date0 := "2020-05-04", date1 := "2020-05-04",
    xmin := 0, ymin := 0, xmax := 0, ymax := 0, extent_crs_authid := "",
    output_crs_valid := false, output_crs_authid := "", output_res := 0 }

/-- Claim C5, counterexample: both dates are present and the start date is
not earlier than the end date (they are equal), yet validation reports no
message at all: the code fires only on start strictly later than end. -/
theorem check_msgs_equal_dates_no_message :
    cp5.date0 = cp5.date1
    ∧ parseDate cp5.date0 = some (2020, 5, 4)
    ∧ check_msgs (fun _ => true) cp5 = .ok [] :=
  ⟨rfl, rfl, rfl⟩

/-- Parameters for the C5 witness: start later than end. -/
def cp5w : CPParams :=
  { products_str := "p", date0 := "2021-02-02", date1 := "2021-01-01",
    xmin := 0, ymin := 0, xmax := 0, ymax := 0, extent_crs_authid := "",
    output_crs_valid := false, output_crs_authid := "", output_res := 0 }

theorem check_msgs_date_order_witness :
    cp5w.date0 ≠ "" ∧ cp5w.date1 ≠ ""
    ∧ parseDate cp5w.date0 = some (2021, 2, 2)
    ∧ parseDate cp5w.date1 = some (2021, 1, 1)
    ∧ ∃ msgs, check_msgs (fun _ => true) cp5w = .ok msgs
      ∧ (msg_date_order ∈ msgs ↔ dateLt (2021, 1, 1) (2021, 2, 2) = true) :=
  ⟨by decide, by decide, rfl, rfl,
   check_msgs_date_order (fun _ => true) cp5w (2021, 2, 2) (2021, 1, 1)
     (by decide) (by decide) rfl rfl⟩

/-- Claim C4 (amended): validation reports the resolution message for every
parameter set that specifies a valid output CRS without an output pixel
resolution (the code checks CRS-requires-resolution, not the converse),
and whenever any check fails checkParameterValues returns failure with the
messages of all failing checks joined by newlines. -/
theorem check_crs_requires_resolution (crs_ok : String → Bool) (p : CPParams)
    (msgs : List String) (superResult : Bool × String)
    (hm : check_msgs crs_ok p = .ok msgs) :
    (p.output_crs_valid = true → p.output_res = 0 → msg_output_res ∈ msgs)
    ∧ (msgs ≠ [] → checkParameterValues crs_ok p superResult
        = .ok (false, String.intercalate "\n" msgs)) := by
  constructor
  · intro hv hr
    have hmem : msg_output_res ∈ cm_output crs_ok p := by
      unfold cm_output
      rw [if_pos hv, if_pos hr]
      simp
    unfold check_msgs at hm
    split at hm
    · split at hm
      · obtain rfl := Except.ok.inj hm
        simp only [List.mem_append]
        exact Or.inr hmem
      · exact absurd hm (by simp)
    · obtain rfl := Except.ok.inj hm
      simp only [List.mem_append]
      exact Or.inr hmem
  · intro hne
    have hie : msgs.isEmpty = false := by
      cases msgs with
      | nil => exact absurd rfl hne
      | cons a l => rfl
    unfold checkParameterValues
    rw [hm]
    simp [hie]

/-- Parameters with an output resolution but no output CRS. -/
def cp4 : CPParams :=
  { products_str := "p", date0 := "", date1 := "", xmin := 0, ymin := 0,
    xmax := 0, ymax := 0, extent_crs_authid := "", output_crs_valid := false,
    output_crs_authid := "", output_res := 1 }

/-- Claim C4, counterexample: a parameter set that specifies an output pixel
resolution (1.0) without an output CRS passes validation with no message:
the code checks only the converse (CRS without resolution) direction. -/
theorem check_msgs_res_without_crs_no_message :
    check_msgs (fun _ => true) cp4 = .ok []
    ∧ cp4.output_res ≠ 0 ∧ cp4.output_crs_valid = false :=
  ⟨rfl, by decide, rfl⟩

/-- Parameters with a valid output CRS and no output resolution. -/
def cp4w : CPParams :=
  { products_str := "p", date0 := "", date1 := "", xmin := 0, ymin := 0,
    xmax := 0, ymax := 0, extent_crs_authid := "", output_crs_valid := true,
    output_crs_authid := "EPSG:4326", output_res := 0 }

theorem check_crs_requires_resolution_witness :
    check_msgs (fun _ => true) cp4w = .ok [msg_output_res]
    ∧ cp4w.output_crs_valid = true ∧ cp4w.output_res = 0
    ∧ msg_output_res ∈ [msg_output_res]
    ∧ checkParameterValues (fun _ => true) cp4w (true, "ok")
        = .ok (false, String.intercalate "\n" [msg_output_res]) :=
  have h := check_crs_requires_resolution (fun _ => true) cp4w [msg_output_res]
    (true, "ok") rfl
  ⟨rfl, rfl, rfl, h.1 rfl rfl, h.2 (by simp)⟩

/-! ### DataCubeQueryAlgorithm.execute (datacube_query/algs/query.py,
lines 280-351) -/

/-- The exception kinds the export loop distinguishes: NoDataError,
TooManyDatasetsError (raised by the query layer; their classes live in
datacube_query/exceptions.py, not under src, and the spec names them the
no-matching-data and too-many-datasets errors), OSError, and every other
exception, which the loop does not catch. -/
inductive PyErr
  | noData (msg : String)
  | tooManyDatasets (msg : String)
  | osError (msg : String)
  | other (msg : String)
  deriving DecidableEq, Repr

/-- str(err), the text interpolated into the reportError message. -/
def PyErr.msg : PyErr → String
  | .noData m => m
  | .tooManyDatasets m => m
  | .osError m => m
  | .other m => m

/-- Membership in the except (NoDataError, TooManyDatasetsError, OSError)
clause of line 311. -/
def PyErr.catchable : PyErr → Bool
  | .other _ => false
  | _ => true

/-- Outcome of the query layer for one product. -/
inductive RQResult (D : Type)
  | ok (data : D)
  | raise (e : PyErr)
  deriving DecidableEq, Repr

/-- int(x) for the nonnegative progress floats, modelled exactly over ℚ. -/
def pyInt (q : ℚ) : Int := ⌊q⌋

/-- The observable calls execute makes on the feedback channel, the file
system and the raster helpers, in order. -/
inductive Ev
  | setProgress (n : Int)
  | setProgressText (s : String)
  | pushInfo (s : String)
  | reportError (s : String)
  | writeGeotiff (path : String) (time_index : Nat) (profile_override : PyVal)
      (overwrite : Bool)
  | updateTags (path : String) (key : String) (value : String)
  | buildOverviews (path : String) (opts : PyVal)
  | calcStats (path : String) (approx : PyVal)
  deriving DecidableEq, Repr

/-- The collaborators and settings execute runs against. Q is the query
type produced by utils.build_query (current utils module, not under src,
held abstract), D the xarray dataset type, T its time coordinate type.
run_query covers the whole try-block retrieval; times gives data.time;
dt_str is utils.datetime_to_str (external strftime); isCanceled gives the
result of the n-th poll of feedback.isCanceled. -/
structure Env (Q D T : Type) where
  build_query : String → List String → Q
  reprQ : Q → String
  run_query : Q → RQResult D
  times : D → List T
  dt_str : T → String → String
  isCanceled : Nat → Bool
  group_by : Option String
  overviews : Bool
  calc_stats : Bool
  output_folder : String
  gtiff_options : PyVal
  gtiff_ovr_options : PyVal
  approx_ok : PyVal

/-- ds of one timestep (lines 320-325): the filename date string. -/
def stepDs {Q D T : Type} (env : Env Q D T) (dt : T) : String :=
  if env.group_by.isNone then env.dt_str dt "%Y-%m-%d_%H-%M-%S"
  else env.dt_str dt "%Y-%m-%d"

/-- tag of one timestep (lines 320-326): the TIFFTAG_DATETIME value. -/
def stepTag {Q D T : Type} (env : Env Q D T) (dt : T) : String :=
  if env.group_by.isNone then env.dt_str dt "%Y:%m:%d %H:%M:%S"
  else env.dt_str dt "%Y:%m:%d"

/-- raster_path of one timestep (line 328): basepath.format(ds) + .tif,
where basepath is str(Path(output_folder, product _ placeholder)) on a
POSIX host and the product name carries no braces. -/
def stepPath {Q D T : Type} (env : Env Q D T) (product : String) (dt : T) :
    String :=
  env.output_folder ++ "/" ++ product ++ "_" ++ stepDs env dt ++ ".tif"

/-- The calls one timestep makes (lines 330-344): the geotiff write, the
TIFFTAG_DATETIME update, overviews only when the overviews setting is on,
statistics only when the statistics setting is on, then the progress
update. -/
def stepEvents {Q D T : Type} (env : Env Q D T) (pt : ℚ) (idx : Nat)
    (product : String) (i : Nat) (dt : T) : List Ev :=
  [.writeGeotiff (stepPath env product dt) i env.gtiff_options true,
   .updateTags (stepPath env product dt) "TIFFTAG_DATETIME" (stepTag env dt)]
  ++ (if env.overviews then
        [.buildOverviews (stepPath env product dt) env.gtiff_ovr_options]
      else [])
  ++ (if env.calc_stats then
        [.calcStats (stepPath env product dt) env.approx_ok]
      else [])
  ++ [.setProgress (pyInt (((idx : ℚ) * 10 + (i : ℚ) + 1) * pt))]

/-- Result of the inner for-loop over data.time: either the cancellation
return of line 347 fired, or the loop ran through. Carries the layers
accumulated, the polls consumed and the trace of calls made. -/
inductive TimeRes
  | canceled (layers : PyDict String) (trace : List Ev)
  | finished (layers : PyDict String) (polls : Nat) (trace : List Ev)
  deriving DecidableEq, Repr

/-- The inner loop of execute (lines 320-347): one file per timestep, the
tag update, optional overviews and statistics, the layer-map entry, the
progress update, then the cancellation poll. -/
def timeLoop {Q D T : Type} (env : Env Q D T) (pt : ℚ) (idx : Nat)
    (product : String) :
    List T → Nat → Nat → PyDict String → TimeRes
  | [], _, polls, acc => .finished acc polls []
  | dt :: rest, i, polls, acc =>
    let evs := stepEvents env pt idx product i dt
    let acc' := pySet acc (stepPath env product dt)
      (product ++ "_" ++ stepDs env dt)
    if env.isCanceled polls then .canceled acc' evs
    else
      match timeLoop env pt idx product rest (i + 1) (polls + 1) acc' with
      | .canceled l t => .canceled l (evs ++ t)
      | .finished l p t => .finished l p (evs ++ t)

/-- Result of execute: the layer map and trace, or the uncaught exception
that aborted the run. -/
inductive ExecRes
  | ok (layers : PyDict String) (trace : List Ev)
  | exn (e : PyErr) (trace : List Ev)
  deriving DecidableEq, Repr

/-- Prefix a run with the calls already made. -/
def ExecRes.push (evs : List Ev) : ExecRes → ExecRes
  | .ok l t => .ok l (evs ++ t)
  | .exn e t => .exn e (evs ++ t)

/-- The outer loop of execute (lines 291-351): the cancellation poll, the
progress text, build_query, the query info line, run_query with its except
clause (reportError, progress update, continue on a catchable error;
propagation otherwise), then the inner loop and the per-product progress
update. -/
def productLoop {Q D T : Type} (env : Env Q D T) (pt : ℚ) :
    List (String × List String) → Nat → Nat → PyDict String → ExecRes
  | [], _, _, acc => .ok acc []
  | (product, meas) :: rest, idx, polls, acc =>
    if env.isCanceled polls then .ok acc []
    else
      let q := env.build_query product meas
      let pre : List Ev := [.setProgressText ("Processing " ++ product),
                            .pushInfo ("Query: " ++ env.reprQ q)]
      match env.run_query q with
      | .raise e =>
        if e.catchable then
          ExecRes.push (pre
              ++ [.reportError ("Error encountered processing " ++ product
                    ++ ": " ++ e.msg),
                  .setProgress (pyInt (((idx : ℚ) + 1) * 10 * pt))])
            (productLoop env pt rest (idx + 1) (polls + 1) acc)
        else .exn e pre
      | .ok data =>
        let pre2 := pre ++ [Ev.setProgressText ("Saving outputs for " ++ product)]
        match timeLoop env pt idx product (env.times data) 0 (polls + 1) acc with
        | .canceled l t => .ok l (pre2 ++ t)
        | .finished l polls2 t =>
          ExecRes.push
            (pre2 ++ t ++ [.setProgress (pyInt (((idx : ℚ) + 1) * 10 * pt))])
            (productLoop env pt rest (idx + 1) polls2 l)

/-- DataCubeQueryAlgorithm.execute: progress_total, the initial progress
reset, then the loop over the products dict items. -/
def execute {Q D T : Type} (env : Env Q D T)
    (products : List (String × List String)) : ExecRes :=
  let pt : ℚ := 100 / (10 * (products.length : ℚ))
  ExecRes.push [.setProgress 0] (productLoop env pt products 0 0 [])

/-! ### Theorems for execute -/

/-- Claim C1: a product whose retrieval raises NoDataError,
TooManyDatasetsError or OSError is caught by the export loop: the failure
is reported through feedback.reportError, the progress is updated, and the
run continues with the remaining products and the layer map accumulated so
far unchanged, rather than propagating the exception and aborting. -/
theorem execute_catches_and_skips_failed_product {Q D T : Type}
    (env : Env Q D T) (pt : ℚ) (product : String) (meas : List String)
    (rest : List (String × List String)) (idx polls : Nat) (acc : PyDict String)
    (e : PyErr) (hnc : env.isCanceled polls = false)
    (hfail : env.run_query (env.build_query product meas) = .raise e)
    (hcatch : e.catchable = true) :
    productLoop env pt ((product, meas) :: rest) idx polls acc =
      ExecRes.push
        [.setProgressText ("Processing " ++ product),
         .pushInfo ("Query: " ++ env.reprQ (env.build_query product meas)),
         .reportError ("Error encountered processing " ++ product ++ ": "
            ++ e.msg),
         .setProgress (pyInt (((idx : ℚ) + 1) * 10 * pt))]
        (productLoop env pt rest (idx + 1) (polls + 1) acc) := by
  simp [productLoop, hnc, hfail, hcatch]

/-- A concrete environment whose retrieval raises NoDataError and whose
cancellation flag never fires. -/
def envFail : Env Unit Unit Unit :=
  { build_query := fun _ _ => (), reprQ := fun _ => "q",
    run_query := fun _ => .raise (.noData "No datasets found"),
    times := fun _ => [], dt_str := fun _ f => f, isCanceled := fun _ => false,
    group_by := some "solar_day", overviews := false, calc_stats := false,
    output_folder := "/data/out", gtiff_options := .vNone,
    gtiff_ovr_options := .vNone, approx_ok := .vNone }

theorem execute_catches_and_skips_failed_product_witness :
    envFail.isCanceled 0 = false
    ∧ envFail.run_query (envFail.build_query "ls8" [])
        = .raise (.noData "No datasets found")
    ∧ (PyErr.noData "No datasets found").catchable = true
    ∧ productLoop envFail 10 [("ls8", [])] 0 0 [] =
        ExecRes.push
          [.setProgressText ("Processing " ++ "ls8"),
           .pushInfo ("Query: " ++ envFail.reprQ (envFail.build_query "ls8" [])),
           .reportError ("Error encountered processing " ++ "ls8" ++ ": "
              ++ (PyErr.noData "No datasets found").msg),
           .setProgress (pyInt (((0 : ℚ) + 1) * 10 * 10))]
          (productLoop envFail 10 [] 1 1 []) :=
  ⟨rfl, rfl, rfl,
   execute_catches_and_skips_failed_product envFail 10 "ls8" [] [] 0 0 []
     (.noData "No datasets found") rfl rfl rfl⟩

/-- Claim C6: cancellation is cooperative: the flag is polled at the head of
each product iteration (before the query) and after each timestep write;
when a poll reports cancelled, execute returns the layer map accumulated so
far at once, performing no further query, file write or post-processing
call. -/
theorem execute_cancellation {Q D T : Type} (env : Env Q D T) (pt : ℚ)
    (idx polls : Nat) (acc : PyDict String)
    (h : env.isCanceled polls = true) :
    (∀ (product : String) (meas : List String)
        (rest : List (String × List String)),
      productLoop env pt ((product, meas) :: rest) idx polls acc = .ok acc [])
    ∧ (∀ (product : String) (dt : T) (restT : List T) (i : Nat),
      timeLoop env pt idx product (dt :: restT) i polls acc =
        .canceled
          (pySet acc (stepPath env product dt)
            (product ++ "_" ++ stepDs env dt))
          (stepEvents env pt idx product i dt)) := by
  constructor
  · intro product meas rest
    simp [productLoop, h]
  · intro product dt restT i
    simp [timeLoop, h]

/-- The concrete failing environment with the cancellation flag always on. -/
def envCancel : Env Unit Unit Unit :=
  { envFail with isCanceled := fun _ => true }

theorem execute_cancellation_witness :
    envCancel.isCanceled 0 = true
    ∧ productLoop envCancel 10 [("ls8", [])] 0 0 [] = .ok [] []
    ∧ timeLoop envCancel 10 0 "ls8" [()] 0 0 [] =
        .canceled
          (pySet [] (stepPath envCancel "ls8" ())
            ("ls8" ++ "_" ++ stepDs envCancel ()))
          (stepEvents envCancel 10 0 "ls8" 0 ()) :=
  have h := execute_cancellation envCancel 10 0 0 [] rfl
  ⟨rfl, h.1 "ls8" [] [], h.2 "ls8" () [] 0⟩

/-- The flat trace of the inner loop when nothing cancels. -/
def timesTrace {Q D T : Type} (env : Env Q D T) (pt : ℚ) (idx : Nat)
    (product : String) : List T → Nat → List Ev
  | [], _ => []
  | dt :: rest, i => stepEvents env pt idx product i dt
      ++ timesTrace env pt idx product rest (i + 1)

/-- The layer map after the inner loop: one path-to-layer-name entry per
timestep. -/
def timesLayers {Q D T : Type} (env : Env Q D T) (product : String) :
    List T → PyDict String → PyDict String
  | [], acc => acc
  | dt :: rest, acc => timesLayers env product rest
      (pySet acc (stepPath env product dt) (product ++ "_" ++ stepDs env dt))

/-- Recognises the geotiff write call. -/
def isWriteEv : Ev → Bool
  | .writeGeotiff _ _ _ _ => true
  | _ => false

theorem timeLoop_no_cancel {Q D T : Type} (env : Env Q D T) (pt : ℚ)
    (idx : Nat) (product : String) (hnc : ∀ n, env.isCanceled n = false) :
    ∀ (ts : List T) (i polls : Nat) (acc : PyDict String),
    timeLoop env pt idx product ts i polls acc =
      .finished (timesLayers env product ts acc) (polls + ts.length)
        (timesTrace env pt idx product ts i) := by
  intro ts
  induction ts with
  | nil =>
    intro i polls acc
    simp [timeLoop, timesLayers, timesTrace]
  | cons dt rest ih =>
    intro i polls acc
    rw [timeLoop]
    simp only [hnc (polls), Bool.false_eq_true, if_false, ih,
      timesLayers, timesTrace, List.length_cons]
    congr 1
    omega

theorem stepEvents_countP_write {Q D T : Type} (env : Env Q D T) (pt : ℚ)
    (idx : Nat) (product : String) (i : Nat) (dt : T) :
    (stepEvents env pt idx product i dt).countP isWriteEv = 1 := by
  cases ho : env.overviews <;> cases hc : env.calc_stats <;>
    simp [stepEvents, ho, hc, isWriteEv, List.countP_append, List.countP_cons]

theorem timesTrace_countP_write {Q D T : Type} (env : Env Q D T) (pt : ℚ)
    (idx : Nat) (product : String) :
    ∀ (ts : List T) (i : Nat),
    (timesTrace env pt idx product ts i).countP isWriteEv = ts.length := by
  intro ts
  induction ts with
  | nil => intro i; simp [timesTrace]
  | cons dt rest ih =>
    intro i
    simp [timesTrace, List.countP_append, stepEvents_countP_write, ih]
    omega

/-- Claim C3: a product whose retrieval succeeds under no cancellation runs
build_query, then run_query, then iterates the time coordinates emitting
exactly one geotiff per timestep; each write is followed by the
TIFFTAG_DATETIME tag update, overviews are built only when the overviews
option is set, statistics are computed only when the statistics option is
set, each file path maps to its layer name in the returned map, and the
accumulated map is handed on to the remaining products. -/
theorem execute_product_pipeline {Q D T : Type} (env : Env Q D T) (pt : ℚ)
    (product : String) (meas : List String)
    (rest : List (String × List String)) (idx polls : Nat)
    (acc : PyDict String) (data : D)
    (hnc : ∀ n, env.isCanceled n = false)
    (hok : env.run_query (env.build_query product meas) = .ok data) :
    productLoop env pt ((product, meas) :: rest) idx polls acc =
      ExecRes.push
        ([.setProgressText ("Processing " ++ product),
          .pushInfo ("Query: " ++ env.reprQ (env.build_query product meas)),
          .setProgressText ("Saving outputs for " ++ product)]
         ++ timesTrace env pt idx product (env.times data) 0
         ++ [.setProgress (pyInt (((idx : ℚ) + 1) * 10 * pt))])
        (productLoop env pt rest (idx + 1)
          (polls + 1 + (env.times data).length)
          (timesLayers env product (env.times data) acc))
    ∧ (timesTrace env pt idx product (env.times data) 0).countP isWriteEv
        = (env.times data).length := by
  refine ⟨?_, timesTrace_countP_write env pt idx product _ 0⟩
  rw [productLoop]
  simp [hnc polls, hok, timeLoop_no_cancel env pt idx product hnc,
    ExecRes.push, List.append_assoc]

/-- A concrete succeeding environment: two timesteps, overviews on,
statistics off, never cancelled. -/
def envOk : Env Unit (List Nat) Nat :=
  { build_query := fun _ _ => (), reprQ := fun _ => "q",
    run_query := fun _ => .ok [7, 8],
    times := fun d => d, dt_str := fun t f => toString t ++ f,
    isCanceled := fun _ => false,
    group_by := some "solar_day", overviews := true, calc_stats := false,
    output_folder := "/data/out", gtiff_options := .vNone,
    gtiff_ovr_options := .vNone, approx_ok := .vNone }

theorem execute_product_pipeline_witness :
    (∀ n, envOk.isCanceled n = false)
    ∧ envOk.run_query (envOk.build_query "ls8" []) = .ok [7, 8]
    ∧ (productLoop envOk 10 [("ls8", [])] 0 0 [] =
        ExecRes.push
          ([.setProgressText ("Processing " ++ "ls8"),
            .pushInfo ("Query: " ++ envOk.reprQ (envOk.build_query "ls8" [])),
            .setProgressText ("Saving outputs for " ++ "ls8")]
           ++ timesTrace envOk 10 0 "ls8" (envOk.times [7, 8]) 0
           ++ [.setProgress (pyInt (((0 : ℚ) + 1) * 10 * 10))])
          (productLoop envOk 10 [] 1 (0 + 1 + (envOk.times [7, 8]).length)
            (timesLayers envOk "ls8" (envOk.times [7, 8]) []))
      ∧ (timesTrace envOk 10 0 "ls8" (envOk.times [7, 8]) 0).countP isWriteEv
          = (envOk.times [7, 8]).length) :=
  ⟨fun _ => rfl, rfl,
   execute_product_pipeline envOk 10 "ls8" [] [] 0 0 [] [7, 8]
     (fun _ => rfl) rfl⟩

/-! ### The runtime run_query (datacube_query/utils.py, not under src) -/

/-- Modelled from the spec: the run_query that
datacube_query/algs/query.py line 309 calls as
run_query(query, config_file, max_datasets=max_datasets) lives in
datacube_query/utils.py, which is not under src (the staged
src/datacube_query/utils.py is a stale earlier copy with a different
signature). Per the spec's query-engine contract it returns a time-indexed
raster dataset or raises on empty or oversized results, and the caller's
except clause (query.py line 311) names the raises: NoDataError when the
search finds no matching datasets, TooManyDatasetsError when their number
exceeds the configured maximum (query.py lines 224-227 parse max_datasets
from the settings, None when unset). The search and the data-cube load are
the external parameters; the message strings are placeholders the claim
does not depend on. -/
def run_query {Q α D : Type} (search : Q → List α) (load : Q → D)
    (query : Q) (max_datasets : Option Nat) : Except PyErr D :=
  let datasets := search query
  if datasets.isEmpty then .error (.noData "No datasets found")
  else
    match max_datasets with
    | some m =>
      if datasets.length > m then
        .error (.tooManyDatasets "Too many datasets found")
      else .ok (load query)
    | none => .ok (load query)

/-- Claim C2: for every query, run_query either returns the time-indexed
raster dataset produced by the data-cube load, or raises the
no-matching-data error when the search finds no datasets, or raises the
too-many-datasets error when the number of matching datasets exceeds the
configured maximum; it raises in no other case of its own. -/
theorem run_query_contract {Q α D : Type} (search : Q → List α)
    (load : Q → D) (query : Q) (max_datasets : Option Nat) :
    (search query = [] →
      run_query search load query max_datasets
        = .error (.noData "No datasets found"))
    ∧ (∀ m, max_datasets = some m → search query ≠ [] →
        (search query).length > m →
      run_query search load query max_datasets
        = .error (.tooManyDatasets "Too many datasets found"))
    ∧ (search query ≠ [] →
        (∀ m, max_datasets = some m → (search query).length ≤ m) →
      run_query search load query max_datasets = .ok (load query)) := by
  refine ⟨?_, ?_, ?_⟩
  · intro h
    simp [run_query, h]
  · intro m hm hne hgt
    subst hm
    simp [run_query, List.isEmpty_iff, hne, hgt]
  · intro hne hle
    cases hmd : max_datasets with
    | none => simp [run_query, List.isEmpty_iff, hne]
    | some m =>
      have hlt : ¬ ((search query).length > m) := by
        have := hle m hmd
        omega
      simp [run_query, List.isEmpty_iff, hne, hlt]

theorem run_query_contract_witness :
    (run_query (fun _ : Unit => ([] : List Nat)) (fun _ => "data") () (some 2)
        = .error (.noData "No datasets found"))
    ∧ (([0, 1, 2] : List Nat) ≠ [] ∧ ([0, 1, 2] : List Nat).length > 2
      ∧ run_query (fun _ : Unit => ([0, 1, 2] : List Nat)) (fun _ => "data") ()
          (some 2) = .error (.tooManyDatasets "Too many datasets found"))
    ∧ (([0, 1, 2] : List Nat).length ≤ 5
      ∧ run_query (fun _ : Unit => ([0, 1, 2] : List Nat)) (fun _ => "data") ()
          (some 5) = .ok "data") :=
  ⟨(run_query_contract (fun _ : Unit => ([] : List Nat)) (fun _ => "data") ()
      (some 2)).1 rfl,
   ⟨by decide, by decide,
    (run_query_contract (fun _ : Unit => ([0, 1, 2] : List Nat))
      (fun _ => "data") () (some 2)).2.1 2 rfl (by decide) (by decide)⟩,
   by decide,
   (run_query_contract (fun _ : Unit => ([0, 1, 2] : List Nat))
      (fun _ => "data") () (some 5)).2.2 (by decide)
     (fun m hm => by cases hm; decide)⟩

end DatacubeQgis
